import Mathlib

/-!
Shallow embedding of `src/lifecycle_config.py`: the CloudFormation
custom-resource handler that creates, updates and deletes a SageMaker
Studio lifecycle configuration and toggles a domain setting.

The external SageMaker control plane is modelled by an `Env` oracle that
fixes the result of each control-plane call; the handler is a pure
function of the event and the oracle, returning the list of control-plane
calls it issued, the list of cfnresponse notifications it sent, and a flag
recording that the unbounded status-poll loop ran out of observed
statuses (the embedding of nontermination).
-/

namespace LifecycleConfig

/-- The `AUTO_STOP_COMMAND_TEMPLATE` string constant of
`src/lifecycle_config.py` (the auto-stop fragment), with Python string
escape processing applied. -/
def AUTO_STOP_COMMAND_TEMPLATE : String :=
"ASI_VERSION=0.3.1

# System variables [do not change if not needed]
CONDA_HOME=/opt/conda/bin
LOG_FILE=/var/log/apps/app_container.log # Writing to app_container.log delivers logs to CW logs.
SOLUTION_DIR=/var/tmp/auto-stop-idle # Do not use /home/sagemaker-user
PYTHON_PACKAGE=sagemaker_code_editor_auto_shut_down-$ASI_VERSION.tar.gz
PYTHON_SCRIPT_PATH=$SOLUTION_DIR/sagemaker_code_editor_auto_shut_down/auto_stop_idle.py

# Installing cron
sudo apt-get update -y
sudo apt-get install -y -q vim

# Issue - https://github.com/aws-samples/sagemaker-studio-apps-lifecycle-config-examples/issues/12
# SM Distribution image 1.6 is not starting cron service by default https://github.com/aws/sagemaker-distribution/issues/354

# Check if cron needs to be installed
status=\"$(dpkg-query -W \x2d\x2dshowformat=\x27$\x7bdb:Status-Status\x7d\x27 \"cron\" 2>&1)\"
if [ ! $? = 0 ] || [ ! \"$status\" = installed ]; then
    # Fixing invoke-rc.d: policy-rc.d denied execution of restart.
    sudo /bin/bash -c \"echo \x27#!/bin/sh
    exit 0\x27 > /usr/sbin/policy-rc.d\"

    # Installing cron.
    echo \"Installing cron...\"
    sudo apt install cron
else
    echo \"Package cron is already installed.\"
    sudo cron
fi

# Creating solution directory.
sudo mkdir -p $SOLUTION_DIR

# Downloading autostop idle Python package.
echo \"Downloading autostop idle Python package...\"
curl -LO \x2d\x2doutput-dir /var/tmp/ https://github.com/aws-samples/sagemaker-studio-apps-lifecycle-config-examples/releases/download/v$ASI_VERSION/$PYTHON_PACKAGE
sudo $CONDA_HOME/pip install -U -t $SOLUTION_DIR /var/tmp/$PYTHON_PACKAGE

# Touch file to ensure idleness timer is reset to 0
echo \"Touching file to reset idleness timer\"
touch /opt/amazon/sagemaker/sagemaker-code-editor-server-data/data/User/History/startup_timestamp

# Setting container credential URI variable to /etc/environment to make it available to cron
sudo /bin/bash -c \"echo \x27AWS_CONTAINER_CREDENTIALS_RELATIVE_URI=$AWS_CONTAINER_CREDENTIALS_RELATIVE_URI\x27 >> /etc/environment\"

# Add script to crontab for root.
echo \"Adding autostop idle Python script to crontab...\"
echo \"*/2 * * * * /bin/bash -ic \x27$CONDA_HOME/python $PYTHON_SCRIPT_PATH \x2d\x2dtime __AUTO_STOP_IDLE_TIME__ \x2d\x2dregion $AWS_DEFAULT_REGION >> $LOG_FILE\x27\" | sudo crontab -
"

/-- The `LCC_TEMPLATE` string constant of `src/lifecycle_config.py`
(the base provisioning script), with Python string escape processing
applied. -/
def LCC_TEMPLATE : String :=
"#!/bin/bash
set -eux
echo \x27debconf debconf/frontend select Noninteractive\x27 | sudo debconf-set-selections
sudo apt update -qq && sudo apt upgrade -y -qq

# install php
sudo apt install -y -qq software-properties-common ca-certificates lsb-release apt-transport-https
LC_ALL=C.UTF-8 sudo add-apt-repository -y ppa:ondrej/php
sudo apt update -qq
sudo apt install -y -qq php8.2 php8.2-cli php8.2-common php8.2-fpm php8.2-mysql php8.2-zip php8.2-gd php8.2-mbstring php8.2-curl php8.2-xml php8.2-bcmath
sudo apt install -y -qq sqlite3 mysql-server

# install java
wget -O - https://apt.corretto.aws/corretto.key | sudo gpg \x2d\x2ddearmor -o /usr/share/keyrings/corretto-keyring.gpg
echo \"deb [signed-by=/usr/share/keyrings/corretto-keyring.gpg] https://apt.corretto.aws stable main\" | sudo tee /etc/apt/sources.list.d/corretto.list
sudo apt update -qq
sudo apt install -y -qq java-17-amazon-corretto-jdk

# install docker
sudo apt update -qq
sudo apt install -y -qq ca-certificates curl
sudo install -m 0755 -d /etc/apt/keyrings
sudo curl -fsSL https://download.docker.com/linux/ubuntu/gpg -o /etc/apt/keyrings/docker.asc
sudo chmod a+r /etc/apt/keyrings/docker.asc
echo \"deb [arch=$(dpkg \x2d\x2dprint-architecture) signed-by=/etc/apt/keyrings/docker.asc] https://download.docker.com/linux/ubuntu $(. /etc/os-release && echo \"$VERSION_CODENAME\") stable\" | sudo tee /etc/apt/sources.list.d/docker.list > /dev/null
sudo apt update -qq
sudo apt install -y -qq docker-ce docker-ce-cli docker-buildx-plugin docker-compose-plugin
"

/-- CloudFormation request types dispatched by `lambda_handler`. -/
inductive RequestType where
  | Create
  | Update
  | Delete
deriving DecidableEq

/-- Python exceptions that can flow through the handler. -/
inductive Exc where
  | valueError (msg : String)
  | keyError (key : String)
  | runtimeError (msg : String)
  | resourceNotFound (msg : String)
  | clientError (msg : String)
deriving DecidableEq

/-- Python `str(e)` for the exceptions above (`str` of a `KeyError`
wraps the key in single quotes). -/
def Exc.str : Exc → String
  | .valueError m => m
  | .keyError k => "\x27" ++ k ++ "\x27"
  | .runtimeError m => m
  | .resourceNotFound m => m
  | .clientError m => m

/-- A well-typed lifecycle event, the fields `lambda_handler` reads:
`event["ResourceProperties"]["DomainId"]`,
`event["ResourceProperties"]["LifecycleConfigName"]`,
`event["ResourceProperties"]["AutoStopIdleTimeInMinutes"]` (already
converted by `int(...)`; the spec fixes it as a non-negative integer),
`event["RequestType"]`, and the optional `event["PhysicalResourceId"]`. -/
structure Event where
  DomainId : String
  LifecycleConfigName : String
  AutoStopIdleTimeInMinutes : Nat
  RequestType : RequestType
  PhysicalResourceId : Option String
deriving DecidableEq

/-- One call to the SageMaker control plane (or to `time.sleep`),
recorded in the order the handler issues them. -/
inductive ApiCall where
  | create_studio_lifecycle_config (name content appType : String)
  | describe_studio_lifecycle_config (name : String)
  | list_studio_lifecycle_configs (appTypeEquals : String)
  | delete_studio_lifecycle_config (name : String)
  | update_domain_call (domainId : String) (enableDockerAccess : String)
  | describe_domain (domainId : String)
  | sleep (seconds : Nat)
deriving DecidableEq

/-- Calls that mutate control-plane state (create/delete/update); the
describe and list calls are reads, and `sleep` touches nothing. -/
def ApiCall.isMutation : ApiCall → Bool
  | .create_studio_lifecycle_config _ _ _ => true
  | .delete_studio_lifecycle_config _ => true
  | .update_domain_call _ _ => true
  | _ => false

/-- The control-plane oracle: the result each SageMaker call would
return if issued, and the successive `Status` fields the repeated
`describe_domain` calls would observe. -/
structure Env where
  createResult : Except Exc String
  describeLccResult : Except Exc String
  listResult : Except Exc (List String)
  deleteResult : Except Exc Unit
  updateDomainResult : Except Exc Unit
  domainStatuses : List String

/-- The `ValueError` message raised at source lines 118-120 when an
Update event changes `AutoStopIdleTimeInMinutes`. -/
def UPDATE_NOT_SUPPORTED_MSG : String :=
  "The update of \x27AutoStopIdleTimeInMinutes\x27 is not supported. Please recreate the stack instead."

/-- One `cfnresponse.send` invocation. -/
inductive Notification where
  | success (data : List (String × String)) (physicalResourceId : String)
  | failure (reason : String) (data : List (String × String))
      (physicalResourceId : Option String)
deriving DecidableEq

/-- `send_failure` (source lines 140-142): `cfnresponse.send(event, context,
FAILED, {"Error": str(e)}, event.get("PhysicalResourceId"), reason=str(e))`. -/
def send_failure (event : Event) (e : Exc) : Notification :=
  .failure (e.str) [("Error", e.str)] event.PhysicalResourceId

/-- `send_success` (source lines 145-146). -/
def send_success (data : List (String × String)) (physical_resource_id : String) :
    Notification :=
  .success data physical_resource_id

/-- The base64 alphabet used by Python `base64.b64encode`. -/
def B64_ALPHABET : List Char :=
  "ABCDEFGHIJKLMNOPQRSTUVWXYZabcdefghijklmnopqrstuvwxyz0123456789+/".toList

/-- The base64 character for a 6-bit value. -/
def b64Char (n : Nat) : Char := B64_ALPHABET.getD n '='

/-- Standard base64 of a byte list, three bytes to four characters,
padded with `=`. -/
def b64EncodeBytes : List Nat → List Char
  | [] => []
  | [a] => [b64Char (a / 4), b64Char (a % 4 * 16), '=', '=']
  | [a, b] => [b64Char (a / 4), b64Char (a % 4 * 16 + b / 16), b64Char (b % 16 * 4), '=']
  | a :: b :: c :: rest =>
      b64Char (a / 4) :: b64Char (a % 4 * 16 + b / 16) ::
        b64Char (b % 16 * 4 + c / 64) :: b64Char (c % 64) :: b64EncodeBytes rest

/-- Python `base64.b64encode(s.encode("utf-8")).decode("utf-8")`. -/
def b64encode (s : String) : String :=
  ⟨b64EncodeBytes (s.toUTF8.toList.map (fun b => b.toNat))⟩

/-- Python `str.lower()` as applied at source line 101: lower-case each
character (names here are ASCII). -/
def str_lower (s : String) : String := ⟨s.data.map Char.toLower⟩

/-- The content builder, source lines 150-152 of
`create_lifecycle_config`: the base script, plus — when `idle_mins > 0` —
a newline and the auto-stop fragment with `__AUTO_STOP_IDLE_TIME__`
replaced by `str(60 * idle_mins)`. -/
def build_content (idle_mins : Nat) : String :=
  if idle_mins > 0 then
    LCC_TEMPLATE ++ "\n" ++
      AUTO_STOP_COMMAND_TEMPLATE.replace "__AUTO_STOP_IDLE_TIME__" (Nat.repr (60 * idle_mins))
  else
    LCC_TEMPLATE

/-- `create_lifecycle_config` (source lines 149-157): builds the content
and issues one `create_studio_lifecycle_config` call with the
base64-encoded content and app type `CodeEditor`; the call result comes
from the oracle. -/
def create_lifecycle_config (env : Env) (lifecycle_config_name : String)
    (idle_mins : Nat) : List ApiCall × Except Exc String :=
  let lcc := build_content idle_mins
  ([.create_studio_lifecycle_config lifecycle_config_name (b64encode lcc) "CodeEditor"],
   env.createResult)

/-- `delete_lifecycle_config` (source lines 160-168): one delete call; a
`ResourceNotFound` from the control plane is caught and logged, every
other exception is re-raised. -/
def delete_lifecycle_config (env : Env) (lifecycle_config_name : String) :
    List ApiCall × Except Exc Unit :=
  ([.delete_studio_lifecycle_config lifecycle_config_name],
   match env.deleteResult with
   | .ok _ => .ok ()
   | .error (.resourceNotFound _) => .ok ()
   | .error e => .error e)

/-- Outcome of the domain-status poll loop. -/
inductive WaitOut where
  | returned (res : String)
  | raised (e : Exc)
  | outOfStatuses
deriving DecidableEq

/-- The `while True` loop of `update_domain` (source lines 180-189),
driven by the list of statuses the successive `describe_domain` calls
observe: break on `InService` (returning the described resource, modelled
by its status), raise a `RuntimeError` carrying the status on `Failed`,
`Update_Failed` or `Delete_Failed`, otherwise `time.sleep(10)` and poll
again; `.outOfStatuses` embeds running beyond the observed prefix. -/
def wait_for_in_service (domain_id : String) : List String → List ApiCall × WaitOut
  | [] => ([], .outOfStatuses)
  | status :: rest =>
      if status = "InService" then
        ([.describe_domain domain_id], .returned status)
      else if status = "Failed" ∨ status = "Update_Failed" ∨ status = "Delete_Failed" then
        ([.describe_domain domain_id],
         .raised (.runtimeError ("Space is in \x27" ++ status ++ "\x27 state.")))
      else
        let r := wait_for_in_service domain_id rest
        (.describe_domain domain_id :: .sleep 10 :: r.1, r.2)

/-- `update_domain` (source lines 171-189): one `update_domain` call
enabling Docker access, then the poll loop above. -/
def update_domain (env : Env) (domain_id : String) : List ApiCall × WaitOut :=
  match env.updateDomainResult with
  | .error e => ([.update_domain_call domain_id "ENABLED"], .raised e)
  | .ok _ =>
      let r := wait_for_in_service domain_id env.domainStatuses
      (.update_domain_call domain_id "ENABLED" :: r.1, r.2)

/-- The physical resource id derived at source line 104:
`f"{domain_id}_{str(idle_mins)}"` after lower-casing the config name has
no effect on it. -/
def physicalResourceIdOf (event : Event) : String :=
  event.DomainId ++ "_" ++ Nat.repr event.AutoStopIdleTimeInMinutes

/-- The complete run of one handler invocation: control-plane calls in
order, `cfnresponse` notifications in order, and whether the poll loop
ran out of observed statuses (the unbounded loop still spinning). -/
structure HandlerRun where
  calls : List ApiCall
  notifs : List Notification
  hung : Bool
deriving DecidableEq

/-- `lambda_handler` (source lines 98-137): derive the physical id,
dispatch on the request type, and catch every exception of the dispatch
in the single top-level `except`, converting it via `send_failure`. -/
def lambda_handler (env : Env) (event : Event) : HandlerRun :=
  let domain_id := event.DomainId
  let lifecycle_config_name := str_lower event.LifecycleConfigName
  let idle_mins := event.AutoStopIdleTimeInMinutes
  let physical_resource_id := domain_id ++ "_" ++ Nat.repr idle_mins
  match event.RequestType with
  | .Create =>
      let c := create_lifecycle_config env lifecycle_config_name idle_mins
      match c.2 with
      | .error e => ⟨c.1, [send_failure event e], false⟩
      | .ok arn =>
          let u := update_domain env domain_id
          match u.2 with
          | .raised e => ⟨c.1 ++ u.1, [send_failure event e], false⟩
          | .outOfStatuses => ⟨c.1 ++ u.1, [], true⟩
          | .returned _ =>
              ⟨c.1 ++ u.1, [send_success [("Arn", arn)] physical_resource_id], false⟩
  | .Update =>
      match event.PhysicalResourceId with
      | none => ⟨[], [send_failure event (.keyError "PhysicalResourceId")], false⟩
      | some prior =>
          if physical_resource_id ≠ prior then
            ⟨[], [send_failure event (.valueError UPDATE_NOT_SUPPORTED_MSG)], false⟩
          else
            match env.describeLccResult with
            | .error e =>
                ⟨[.describe_studio_lifecycle_config lifecycle_config_name],
                 [send_failure event e], false⟩
            | .ok arn =>
                ⟨[.describe_studio_lifecycle_config lifecycle_config_name],
                 [send_success [("Arn", arn)] physical_resource_id], false⟩
  | .Delete =>
      match env.listResult with
      | .error e =>
          ⟨[.list_studio_lifecycle_configs "CodeEditor"], [send_failure event e], false⟩
      | .ok lifecycle_config_names =>
          if lifecycle_config_name ∈ lifecycle_config_names then
            let d := delete_lifecycle_config env lifecycle_config_name
            match d.2 with
            | .error e =>
                ⟨.list_studio_lifecycle_configs "CodeEditor" :: d.1,
                 [send_failure event e], false⟩
            | .ok _ =>
                ⟨.list_studio_lifecycle_configs "CodeEditor" :: d.1,
                 [send_success [] physical_resource_id], false⟩
          else
            ⟨[.list_studio_lifecycle_configs "CodeEditor"],
             [send_success [] physical_resource_id], false⟩

/-! ### Auxiliary definitions for the proofs -/

/-- Decimal decoding step, the left inverse used to prove `Nat.repr`
injective. -/
def decodeStep (a : Nat) (c : Char) : Nat := 10 * a + (c.toNat - 48)

/-- Some observed domain status is terminal (`InService` or one of the
failure statuses): the hypothesis under which the poll loop finishes
within the observed prefix. -/
def hasTerminalStatus (l : List String) : Prop :=
  ∃ s ∈ l, s = "InService" ∨ s = "Failed" ∨ s = "Update_Failed" ∨ s = "Delete_Failed"

/-! ### Concrete fixtures used by the witnesses -/

/-- A Create event: domain `d-1`, config `MyConfig`, 30 idle minutes. -/
def evCreateTest : Event := ⟨"d-1", "MyConfig", 30, .Create, none⟩

/-- A second event on the same domain with different idle minutes. -/
def evOther25 : Event := ⟨"d-1", "Another", 25, .Create, none⟩

/-- An oracle in which every call succeeds, the config `myconfig` exists,
and the domain reaches `InService` after one `Updating` poll. -/
def envTest : Env :=
  ⟨.ok "arn:aws:sagemaker:lcc", .ok "arn:aws:sagemaker:lcc",
   .ok ["myconfig"], .ok (), .ok (), ["Updating", "InService"]⟩

/-- An oracle in which the listing is empty (resource already gone). -/
def envAbsent : Env :=
  ⟨.ok "arn:aws:sagemaker:lcc", .ok "arn:aws:sagemaker:lcc",
   .ok [], .ok (), .ok (), ["InService"]⟩

/-- An oracle whose domain-update call raises. -/
def envUpdFail : Env :=
  ⟨.ok "arn:aws:sagemaker:lcc", .ok "arn:aws:sagemaker:lcc",
   .ok [], .ok (), .error (.clientError "update failed"), []⟩


/-! ### Decimal-rendering injectivity

`Nat.repr` is injective, proved by decoding the digit list back with a
left fold. -/

lemma decodeStep_digitChar (a m : Nat) (h : m < 10) :
    decodeStep a (Nat.digitChar m) = 10 * a + m := by
  interval_cases m <;> rfl

lemma toDigitsCore_foldl (fuel : Nat) :
    ∀ (n : Nat) (ds : List Char) (a : Nat), n < fuel →
      ∃ k, (Nat.toDigitsCore 10 fuel n ds).foldl decodeStep a =
        ds.foldl decodeStep (a * 10 ^ k + n) := by
  induction fuel with
  | zero => intro n ds a h; omega
  | succ fuel ih =>
      intro n ds a h
      rw [Nat.toDigitsCore]
      by_cases h0 : n / 10 = 0
      · have hn : n < 10 := by omega
        refine ⟨1, ?_⟩
        simp only [h0, if_pos]
        rw [List.foldl_cons, decodeStep_digitChar _ _ (Nat.mod_lt _ (by omega))]
        have hmod : n % 10 = n := Nat.mod_eq_of_lt hn
        rw [hmod]
        ring_nf
      · have hge : 10 ≤ n := by
          by_contra hlt
          exact h0 (Nat.div_eq_of_lt (by omega))
        have hlt : n / 10 < fuel := by
          have h1 : n / 10 < n := Nat.div_lt_self (by omega) (by omega)
          omega
        simp only [h0, if_neg, if_false]
        obtain ⟨k, hk⟩ := ih (n / 10) (Nat.digitChar (n % 10) :: ds) a hlt
        refine ⟨k + 1, ?_⟩
        rw [hk, List.foldl_cons, decodeStep_digitChar _ _ (Nat.mod_lt _ (by omega))]
        rw [pow_succ, ← mul_assoc]
        generalize a * 10 ^ k = q
        congr 1
        omega

lemma decode_toDigits (n : Nat) : (Nat.toDigits 10 n).foldl decodeStep 0 = n := by
  obtain ⟨k, hk⟩ := toDigitsCore_foldl (n + 1) n [] 0 (Nat.lt_succ_self n)
  simpa [Nat.toDigits] using hk

lemma natRepr_injective : Function.Injective Nat.repr := by
  intro m n h
  have hd : Nat.toDigits 10 m = Nat.toDigits 10 n := by
    have := congrArg String.data h
    simpa [Nat.repr, List.asString] using this
  calc m = (Nat.toDigits 10 m).foldl decodeStep 0 := (decode_toDigits m).symm
    _ = n := by rw [hd, decode_toDigits]

lemma physicalResourceIdOf_inj (ev ev' : Event) (hdom : ev.DomainId = ev'.DomainId)
    (h : physicalResourceIdOf ev = physicalResourceIdOf ev') :
    ev.AutoStopIdleTimeInMinutes = ev'.AutoStopIdleTimeInMinutes := by
  apply natRepr_injective
  have hdata := congrArg String.data h
  simp only [physicalResourceIdOf, String.data_append, hdom] at hdata
  rw [List.append_assoc, List.append_assoc] at hdata
  apply String.ext
  exact List.append_cancel_left (List.append_cancel_left hdata)

/-- C1: for every valid event the derived physical resource id is the
concatenation of the domain id, an underscore, and the decimal rendering
of the idle minutes; on a successful Create this id is the one reported
in the success notification; and, the domain id being fixed, the id
changes if and only if the idle minutes change. -/
theorem C1_physical_resource_id (ev ev' : Event) (env : Env)
    (data : List (String × String)) (pid : String) :
    physicalResourceIdOf ev = ev.DomainId ++ "_" ++ Nat.repr ev.AutoStopIdleTimeInMinutes ∧
    (ev.RequestType = .Create →
      (lambda_handler env ev).notifs = [.success data pid] →
      pid = physicalResourceIdOf ev) ∧
    (ev.DomainId = ev'.DomainId →
      (physicalResourceIdOf ev = physicalResourceIdOf ev' ↔
        ev.AutoStopIdleTimeInMinutes = ev'.AutoStopIdleTimeInMinutes)) := by
  refine ⟨rfl, ?_, ?_⟩
  · intro hreq hnot
    unfold lambda_handler at hnot
    rw [hreq] at hnot
    simp only [create_lifecycle_config] at hnot
    cases hc : env.createResult with
    | error e => rw [hc] at hnot; simp [send_failure] at hnot
    | ok arn =>
        rw [hc] at hnot
        cases hu : (update_domain env ev.DomainId).2 with
        | raised e => rw [hu] at hnot; simp [send_failure] at hnot
        | outOfStatuses => rw [hu] at hnot; simp at hnot
        | returned s =>
            rw [hu] at hnot
            simp only [send_success, Notification.success.injEq, List.cons.injEq,
              and_true] at hnot
            exact hnot.2.symm
  · intro hdom
    constructor
    · exact physicalResourceIdOf_inj ev ev' hdom
    · intro hm
      simp [physicalResourceIdOf, hdom, hm]


/-- C2: an Update event whose freshly derived physical id differs from
the prior physical id carried in the event is answered by a failure
notification whose reason is the unsupported-mutation message, and the
handler performs no control-plane call at all before that failure — in
particular no create, update or delete mutation. -/
theorem C2_unsupported_mutation (ev : Event) (env : Env) (prior : String)
    (hreq : ev.RequestType = .Update)
    (hprior : ev.PhysicalResourceId = some prior)
    (hne : physicalResourceIdOf ev ≠ prior) :
    lambda_handler env ev =
      ⟨[], [.failure UPDATE_NOT_SUPPORTED_MSG [("Error", UPDATE_NOT_SUPPORTED_MSG)]
        (some prior)], false⟩ ∧
    (lambda_handler env ev).calls.filter (fun c => c.isMutation) = [] := by
  have hne' : ¬ (ev.DomainId ++ "_" ++ Nat.repr ev.AutoStopIdleTimeInMinutes = prior) := hne
  have hrun : lambda_handler env ev =
      ⟨[], [.failure UPDATE_NOT_SUPPORTED_MSG [("Error", UPDATE_NOT_SUPPORTED_MSG)]
        (some prior)], false⟩ := by
    unfold lambda_handler
    rw [hreq, hprior]
    simp [ne_eq, hne', send_failure, Exc.str, hprior]
  exact ⟨hrun, by rw [hrun]; rfl⟩

/-- C3: Delete is idempotent.  When the lower-cased config name is absent
from the control plane listing for app type `CodeEditor`, the handler
issues only the list call (no delete) and reports success with empty data
and the derived physical id; when it is present and the delete succeeds,
the handler deletes it and likewise reports success — so a Delete driven
once with the resource present and once after it is gone succeeds both
times. -/
theorem C3_delete_idempotent (ev : Event) (env : Env) (names : List String)
    (hreq : ev.RequestType = .Delete)
    (hlist : env.listResult = .ok names) :
    ((str_lower ev.LifecycleConfigName) ∉ names →
      lambda_handler env ev =
        ⟨[.list_studio_lifecycle_configs "CodeEditor"],
         [.success [] (physicalResourceIdOf ev)], false⟩) ∧
    ((str_lower ev.LifecycleConfigName) ∈ names → env.deleteResult = .ok () →
      lambda_handler env ev =
        ⟨[.list_studio_lifecycle_configs "CodeEditor",
          .delete_studio_lifecycle_config (str_lower ev.LifecycleConfigName)],
         [.success [] (physicalResourceIdOf ev)], false⟩) := by
  constructor
  · intro habs
    unfold lambda_handler
    rw [hreq, hlist]
    simp only [if_neg habs]
    rfl
  · intro hmem hdel
    unfold lambda_handler
    rw [hreq, hlist]
    simp only [if_pos hmem, delete_lifecycle_config, hdel]
    rfl

/-- C5: the content builder is a pure function of the idle-minutes value:
at `0` it produces exactly the base provisioning script with the
auto-stop fragment omitted, and at `n > 0` it produces the base script
followed (after a newline) by the auto-stop fragment with the placeholder
`__AUTO_STOP_IDLE_TIME__` replaced by the decimal rendering of `60 * n`. -/
theorem C5_build_content (n : Nat) :
    build_content 0 = LCC_TEMPLATE ∧
    (0 < n → build_content n =
      LCC_TEMPLATE ++ "\n" ++
        AUTO_STOP_COMMAND_TEMPLATE.replace "__AUTO_STOP_IDLE_TIME__" (Nat.repr (60 * n))) := by
  constructor
  · simp [build_content]
  · intro hn
    simp [build_content, hn]

/-- C7: an Update event whose freshly derived physical id equals the
prior physical id in the event triggers exactly one describe (read) call
on the configuration resource — no mutation call — and a success
notification carrying the described resource ARN and the unchanged
physical id. -/
theorem C7_update_read_only (ev : Event) (env : Env) (arn : String)
    (hreq : ev.RequestType = .Update)
    (hprior : ev.PhysicalResourceId = some (physicalResourceIdOf ev))
    (hdesc : env.describeLccResult = .ok arn) :
    lambda_handler env ev =
      ⟨[.describe_studio_lifecycle_config (str_lower ev.LifecycleConfigName)],
       [.success [("Arn", arn)] (physicalResourceIdOf ev)], false⟩ ∧
    ∀ c ∈ (lambda_handler env ev).calls, c.isMutation = false := by
  have hrun : lambda_handler env ev =
      ⟨[.describe_studio_lifecycle_config (str_lower ev.LifecycleConfigName)],
       [.success [("Arn", arn)] (physicalResourceIdOf ev)], false⟩ := by
    unfold lambda_handler
    rw [hreq, hprior]
    simp [physicalResourceIdOf, hdesc, send_success]
  refine ⟨hrun, ?_⟩
  rw [hrun]
  intro c hc
  simp only [List.mem_singleton] at hc
  subst hc
  rfl


/-! ### Waiter lemmas -/

lemma wait_returned_in_service (d : String) :
    ∀ (l : List String) (calls : List ApiCall) (res : String),
      wait_for_in_service d l = (calls, .returned res) → res = "InService" := by
  intro l
  induction l with
  | nil => intro calls res h; simp [wait_for_in_service] at h
  | cons s rest ih =>
      intro calls res h
      by_cases h1 : s = "InService"
      · subst h1
        simp only [wait_for_in_service, if_pos, Prod.mk.injEq, WaitOut.returned.injEq] at h
        exact h.2.symm
      · by_cases h2 : s = "Failed" ∨ s = "Update_Failed" ∨ s = "Delete_Failed"
        · simp [wait_for_in_service, h1, h2] at h
        · simp only [wait_for_in_service, h1, h2, if_false, if_neg, Prod.mk.injEq] at h
          exact ih (wait_for_in_service d rest).1 res (by
            rw [← h.2])


/-- C4: the domain-status waiter returns normally only when the observed
status is `InService` (the returned resource is the one whose status was
just described); on each of `Failed`, `Update_Failed`, `Delete_Failed` it
raises a `RuntimeError` carrying that status; and on each of `Pending`,
`Updating`, `Deleting` it sleeps the fixed 10-second interval and
re-describes the domain. -/
theorem C4_domain_waiter (d : String) (statuses rest : List String) (s : String)
    (calls : List ApiCall) (res : String) :
    (wait_for_in_service d statuses = (calls, .returned res) → res = "InService") ∧
    (s = "Failed" ∨ s = "Update_Failed" ∨ s = "Delete_Failed" →
      wait_for_in_service d (s :: rest) =
        ([.describe_domain d],
         .raised (.runtimeError ("Space is in \x27" ++ s ++ "\x27 state.")))) ∧
    (s = "Pending" ∨ s = "Updating" ∨ s = "Deleting" →
      wait_for_in_service d (s :: rest) =
        (.describe_domain d :: .sleep 10 :: (wait_for_in_service d rest).1,
         (wait_for_in_service d rest).2)) ∧
    wait_for_in_service d ("InService" :: rest) = ([.describe_domain d], .returned "InService") := by
  refine ⟨wait_returned_in_service d statuses calls res, ?_, ?_, rfl⟩
  · rintro (h | h | h) <;> subst h <;> rfl
  · rintro (h | h | h) <;> subst h <;> rfl

/-! ### Termination and call-shape lemmas -/

lemma wait_terminates (d : String) :
    ∀ l : List String, hasTerminalStatus l →
      (wait_for_in_service d l).2 ≠ .outOfStatuses := by
  intro l
  induction l with
  | nil => rintro ⟨s, hs, _⟩; simp at hs
  | cons s rest ih =>
      rintro ⟨t, ht, hterm⟩
      by_cases h1 : s = "InService"
      · simp [wait_for_in_service, h1]
      · by_cases h2 : s = "Failed" ∨ s = "Update_Failed" ∨ s = "Delete_Failed"
        · simp [wait_for_in_service, h1, h2]
        · simp only [wait_for_in_service, h1, h2, if_neg, if_false]
          apply ih
          rcases List.mem_cons.mp ht with h | h
          · subst h; tauto
          · exact ⟨t, h, hterm⟩


lemma wait_calls (d : String) :
    ∀ l : List String, ∀ c ∈ (wait_for_in_service d l).1,
      c = .describe_domain d ∨ c = .sleep 10 := by
  intro l
  induction l with
  | nil => intro c hc; simp [wait_for_in_service] at hc
  | cons s rest ih =>
      intro c hc
      by_cases h1 : s = "InService"
      · simp [wait_for_in_service, h1] at hc; exact Or.inl hc
      · by_cases h2 : s = "Failed" ∨ s = "Update_Failed" ∨ s = "Delete_Failed"
        · simp [wait_for_in_service, h1, h2] at hc; exact Or.inl hc
        · simp only [wait_for_in_service, h1, h2, if_neg, if_false, List.mem_cons] at hc
          rcases hc with h | h | h
          · exact Or.inl h
          · exact Or.inr h
          · exact ih c h

lemma update_domain_calls (env : Env) (d : String) :
    ∀ c ∈ (update_domain env d).1,
      c = .update_domain_call d "ENABLED" ∨ c = .describe_domain d ∨ c = .sleep 10 := by
  intro c hc
  unfold update_domain at hc
  cases hu : env.updateDomainResult with
  | error e => rw [hu] at hc; simp at hc; exact Or.inl hc
  | ok u =>
      rw [hu] at hc
      simp only [List.mem_cons] at hc
      rcases hc with h | h
      · exact Or.inl h
      · exact Or.inr (wait_calls d env.domainStatuses c h)

/-- C8: whenever the poll loop reaches a terminal status, a handler run
delivers its outcome through exactly one `cfnresponse` notification — it
neither returns a value nor lets an exception escape (every raise inside
the dispatch is caught by the top-level `except` and converted). -/
theorem C8_exactly_one_notification (ev : Event) (env : Env)
    (hterm : hasTerminalStatus env.domainStatuses) :
    (lambda_handler env ev).hung = false ∧
    (lambda_handler env ev).notifs.length = 1 := by
  have hwait : (wait_for_in_service ev.DomainId env.domainStatuses).2 ≠ .outOfStatuses :=
    wait_terminates _ _ hterm
  cases hreq : ev.RequestType with
  | Create =>
      cases hc : env.createResult with
      | error e => simp [lambda_handler, hreq, create_lifecycle_config, hc]
      | ok arn =>
          cases hu : env.updateDomainResult with
          | error e =>
              simp [lambda_handler, hreq, create_lifecycle_config, hc, update_domain, hu]
          | ok u =>
              cases hw : (wait_for_in_service ev.DomainId env.domainStatuses).2 with
              | outOfStatuses => exact absurd hw hwait
              | returned s =>
                  simp [lambda_handler, hreq, create_lifecycle_config, hc, update_domain, hu, hw]
              | raised e =>
                  simp [lambda_handler, hreq, create_lifecycle_config, hc, update_domain, hu, hw]
  | Update =>
      cases hpp : ev.PhysicalResourceId with
      | none => simp [lambda_handler, hreq, hpp]
      | some prior =>
          by_cases hif : ev.DomainId ++ "_" ++ Nat.repr ev.AutoStopIdleTimeInMinutes ≠ prior
          · simp [lambda_handler, hreq, hpp, hif]
          · cases hd : env.describeLccResult with
            | error e => simp [lambda_handler, hreq, hpp, hif, hd]
            | ok arn => simp [lambda_handler, hreq, hpp, hif, hd]
  | Delete =>
      cases hl : env.listResult with
      | error e => simp [lambda_handler, hreq, hl]
      | ok names =>
          by_cases hmem : (str_lower ev.LifecycleConfigName) ∈ names
          · cases hdel : env.deleteResult with
            | ok u => simp [lambda_handler, hreq, hl, hmem, delete_lifecycle_config, hdel]
            | error e =>
                cases e <;>
                  simp [lambda_handler, hreq, hl, hmem, delete_lifecycle_config, hdel]
          · simp [lambda_handler, hreq, hl, hmem]

/-- Every notification a run sends is either a success or the image of
some exception under `send_failure`. -/
lemma notifs_shape (ev : Event) (env : Env) (n : Notification)
    (h : n ∈ (lambda_handler env ev).notifs) :
    (∃ d pid, n = .success d pid) ∨ ∃ e : Exc, n = send_failure ev e := by
  simp only [lambda_handler] at h
  repeat' split at h
  all_goals
    first
      | (simp only [List.mem_singleton] at h; exact Or.inr ⟨_, h⟩)
      | (simp only [List.mem_singleton, send_success] at h; exact Or.inl ⟨_, _, h⟩)
      | simp at h

/-- C6: every failure notification a run emits comes from the single
top-level exception handler: its data payload is `{"Error": reason}` and
its physical resource id is the one the triggering event declared (none
when the event carried none). -/
theorem C6_failure_notification_shape (ev : Event) (env : Env) (r : String)
    (data : List (String × String)) (p : Option String)
    (hmem : Notification.failure r data p ∈ (lambda_handler env ev).notifs) :
    data = [("Error", r)] ∧ p = ev.PhysicalResourceId := by
  rcases notifs_shape ev env _ hmem with ⟨d, pid, h⟩ | ⟨e, h⟩
  · exact absurd h (by simp)
  · simp only [send_failure, Notification.failure.injEq] at h
    obtain ⟨h1, h2, h3⟩ := h
    subst h1
    exact ⟨h2, h3⟩

/-- C9: on a Create whose resource creation succeeds but whose domain
update (or its wait) raises, the handler reports the failure and issues
no delete call: the just-created configuration resource is left in
place. -/
theorem C9_no_rollback (ev : Event) (env : Env) (arn : String) (e : Exc)
    (hreq : ev.RequestType = .Create)
    (hcreate : env.createResult = .ok arn)
    (hwait : (update_domain env ev.DomainId).2 = .raised e) :
    (lambda_handler env ev).notifs =
      [.failure e.str [("Error", e.str)] ev.PhysicalResourceId] ∧
    ∀ name, ApiCall.delete_studio_lifecycle_config name ∉ (lambda_handler env ev).calls := by
  have hrun : lambda_handler env ev =
      ⟨.create_studio_lifecycle_config (str_lower ev.LifecycleConfigName)
          (b64encode (build_content ev.AutoStopIdleTimeInMinutes)) "CodeEditor"
        :: (update_domain env ev.DomainId).1,
       [send_failure ev e], false⟩ := by
    unfold lambda_handler
    rw [hreq]
    simp [create_lifecycle_config, hcreate, hwait]
  constructor
  · rw [hrun]
    rfl
  · intro name hmem
    rw [hrun] at hmem
    simp only [List.mem_cons] at hmem
    rcases hmem with h | h
    · simp at h
    · rcases update_domain_calls env ev.DomainId _ h with h1 | h1 | h1 <;> simp at h1

/-! ### Base64 head lemmas -/

lemma b64Char_ne_hash (k : Nat) : b64Char k ≠ '#' := by
  unfold b64Char
  rcases hk : B64_ALPHABET.get? k with _ | c
  · rw [List.getD_eq_getD_get?, hk]
    decide
  · rw [List.getD_eq_getD_get?, hk]
    have hcmem : c ∈ B64_ALPHABET := List.get?_mem hk
    have : ∀ x ∈ B64_ALPHABET, x ≠ '#' := by decide
    exact this c hcmem

lemma b64EncodeBytes_head? (a : Nat) (rest : List Nat) :
    (b64EncodeBytes (a :: rest)).head? = some (b64Char (a / 4)) := by
  rcases rest with _ | ⟨b, _ | ⟨c, rest2⟩⟩ <;> rfl

lemma b64encode_ne_self (s : String) (h : s.data.head? = some '#') :
    b64encode s ≠ s := by
  intro heq
  have hdata : b64EncodeBytes (s.toUTF8.toList.map (fun b => b.toNat)) = s.data :=
    congrArg String.data heq
  cases hb : s.toUTF8.toList.map (fun b => b.toNat) with
  | nil =>
      rw [hb] at hdata
      rw [← hdata] at h
      simp [b64EncodeBytes] at h
  | cons a rest =>
      rw [hb] at hdata
      have h1 := b64EncodeBytes_head? a rest
      rw [hdata, h] at h1
      exact b64Char_ne_hash (a / 4) (by injection h1 with h2; exact h2.symm)

lemma string_head_append (s t : String) (c : Char) (h : s.data.head? = some c) :
    (s ++ t).data.head? = some c := by
  rw [String.data_append]
  cases hs : s.data with
  | nil => rw [hs] at h; simp at h
  | cons a l =>
      rw [hs] at h
      simp only [List.head?_cons, Option.some.injEq] at h
      simp [hs, h]

lemma build_content_head (m : Nat) : (build_content m).data.head? = some '#' := by
  have hlcc : LCC_TEMPLATE.data.head? = some '#' := rfl
  unfold build_content
  split
  · exact string_head_append _ _ _ (string_head_append _ _ _ hlcc)
  · exact hlcc

/-- C10: on every Create the first control-plane call is the create call,
whose content argument is the base64 encoding of the UTF-8 bytes of the
built provisioning script — not the script itself — and whose app type is
the fixed `CodeEditor`. -/
theorem C10_create_sends_base64 (ev : Event) (env : Env)
    (hreq : ev.RequestType = .Create) :
    (lambda_handler env ev).calls.head? =
      some (.create_studio_lifecycle_config (str_lower ev.LifecycleConfigName)
        (b64encode (build_content ev.AutoStopIdleTimeInMinutes)) "CodeEditor") ∧
    b64encode (build_content ev.AutoStopIdleTimeInMinutes) ≠
      build_content ev.AutoStopIdleTimeInMinutes := by
  refine ⟨?_, b64encode_ne_self _ (build_content_head _)⟩
  unfold lambda_handler
  rw [hreq]
  cases hc : env.createResult with
  | error e => simp [create_lifecycle_config, hc]
  | ok arn =>
      cases hw : (update_domain env ev.DomainId).2 with
      | returned s => simp [create_lifecycle_config, hc, hw]
      | raised e2 => simp [create_lifecycle_config, hc, hw]
      | outOfStatuses => simp [create_lifecycle_config, hc, hw]


/-! ### Witnesses -/

/-- Witness for C1 at a concrete Create event and oracle. -/
theorem C1_witness :
    physicalResourceIdOf evCreateTest = "d-1" ++ "_" ++ Nat.repr 30 ∧
    "d-1_30" = physicalResourceIdOf evCreateTest ∧
    (physicalResourceIdOf evCreateTest = physicalResourceIdOf evOther25 ↔ (30 : Nat) = 25) :=
  ⟨(C1_physical_resource_id evCreateTest evOther25 envTest
      [("Arn", "arn:aws:sagemaker:lcc")] "d-1_30").1,
   (C1_physical_resource_id evCreateTest evOther25 envTest
      [("Arn", "arn:aws:sagemaker:lcc")] "d-1_30").2.1 rfl (by decide),
   (C1_physical_resource_id evCreateTest evOther25 envTest
      [("Arn", "arn:aws:sagemaker:lcc")] "d-1_30").2.2 rfl⟩

/-- Witness for C2: an Update changing the idle minutes fails without a
single control-plane call. -/
theorem C2_witness :
    lambda_handler envTest ⟨"d-1", "MyConfig", 30, .Update, some "d-1_20"⟩ =
      ⟨[], [.failure UPDATE_NOT_SUPPORTED_MSG [("Error", UPDATE_NOT_SUPPORTED_MSG)]
        (some "d-1_20")], false⟩ :=
  (C2_unsupported_mutation ⟨"d-1", "MyConfig", 30, .Update, some "d-1_20"⟩ envTest
    "d-1_20" rfl rfl (by decide)).1

/-- Witness for C3: the same Delete event succeeds when the resource is
present and again when it is absent. -/
theorem C3_witness :
    lambda_handler envTest ⟨"d-1", "MyConfig", 30, .Delete, some "d-1_30"⟩ =
      ⟨[.list_studio_lifecycle_configs "CodeEditor",
        .delete_studio_lifecycle_config "myconfig"],
       [.success [] "d-1_30"], false⟩ ∧
    lambda_handler envAbsent ⟨"d-1", "MyConfig", 30, .Delete, some "d-1_30"⟩ =
      ⟨[.list_studio_lifecycle_configs "CodeEditor"],
       [.success [] "d-1_30"], false⟩ :=
  ⟨(C3_delete_idempotent ⟨"d-1", "MyConfig", 30, .Delete, some "d-1_30"⟩ envTest
      ["myconfig"] rfl rfl).2 (by decide) rfl,
   (C3_delete_idempotent ⟨"d-1", "MyConfig", 30, .Delete, some "d-1_30"⟩ envAbsent
      [] rfl rfl).1 (by decide)⟩

/-- Witness for C4 at concrete status sequences. -/
theorem C4_witness :
    wait_for_in_service "d-1" ["Failed"] =
      ([.describe_domain "d-1"],
       .raised (.runtimeError "Space is in \x27Failed\x27 state.")) ∧
    wait_for_in_service "d-1" ["Pending", "InService"] =
      (.describe_domain "d-1" :: .sleep 10 :: (wait_for_in_service "d-1" ["InService"]).1,
       (wait_for_in_service "d-1" ["InService"]).2) ∧
    "InService" = "InService" :=
  ⟨(C4_domain_waiter "d-1" [] [] "Failed" [] "x").2.1 (Or.inl rfl),
   (C4_domain_waiter "d-1" [] ["InService"] "Pending" [] "x").2.2.1 (Or.inl rfl),
   (C4_domain_waiter "d-1" ["InService"] [] "s" [.describe_domain "d-1"] "InService").1 rfl⟩

/-- Witness for C5 at idle minutes 0 and 1. -/
theorem C5_witness :
    build_content 0 = LCC_TEMPLATE ∧
    build_content 1 = LCC_TEMPLATE ++ "\n" ++
      AUTO_STOP_COMMAND_TEMPLATE.replace "__AUTO_STOP_IDLE_TIME__" (Nat.repr 60) :=
  ⟨(C5_build_content 1).1, (C5_build_content 1).2 (by decide)⟩

/-- Witness for C6: the failure emitted for an Update event lacking a
physical id carries `{"Error": reason}` and the event's (absent) id. -/
theorem C6_witness :
    [("Error", "\x27PhysicalResourceId\x27")] = [("Error", "\x27PhysicalResourceId\x27")] ∧
    (none : Option String) =
      (⟨"d-1", "MyConfig", 30, .Update, none⟩ : Event).PhysicalResourceId :=
  C6_failure_notification_shape ⟨"d-1", "MyConfig", 30, .Update, none⟩ envTest
    "\x27PhysicalResourceId\x27" [("Error", "\x27PhysicalResourceId\x27")] none (by decide)

/-- Witness for C7: an id-preserving Update issues one describe call and
succeeds. -/
theorem C7_witness :
    lambda_handler envTest ⟨"d-1", "MyConfig", 30, .Update, some "d-1_30"⟩ =
      ⟨[.describe_studio_lifecycle_config "myconfig"],
       [.success [("Arn", "arn:aws:sagemaker:lcc")] "d-1_30"], false⟩ :=
  (C7_update_read_only ⟨"d-1", "MyConfig", 30, .Update, some "d-1_30"⟩ envTest
    "arn:aws:sagemaker:lcc" rfl (by decide) rfl).1

/-- Witness for C8 at a run whose poll loop reaches `InService`. -/
theorem C8_witness :
    (lambda_handler envTest evCreateTest).hung = false ∧
    (lambda_handler envTest evCreateTest).notifs.length = 1 :=
  C8_exactly_one_notification evCreateTest envTest
    (by exact ⟨"InService", by decide, Or.inl rfl⟩)

/-- Witness for C9: create succeeds, the domain update raises, the
failure is reported and no delete call appears. -/
theorem C9_witness :
    (lambda_handler envUpdFail evCreateTest).notifs =
      [.failure "update failed" [("Error", "update failed")] none] ∧
    ∀ name, ApiCall.delete_studio_lifecycle_config name ∉
      (lambda_handler envUpdFail evCreateTest).calls :=
  C9_no_rollback evCreateTest envUpdFail "arn:aws:sagemaker:lcc"
    (.clientError "update failed") rfl rfl (by decide)

/-- Witness for C10 at the concrete Create event. -/
theorem C10_witness :
    (lambda_handler envTest evCreateTest).calls.head? =
      some (.create_studio_lifecycle_config "myconfig"
        (b64encode (build_content 30)) "CodeEditor") ∧
    b64encode (build_content 30) ≠ build_content 30 :=
  C10_create_sends_base64 evCreateTest envTest rfl

end LifecycleConfig
